import Mathlib

/-!
Verification development for the DataDock federated search and redaction
engine.  The definitions below are a shallow embedding of the Python source:

  - data_connectors/base.py        (BaseConnector.filter_sensitive_fields)
  - data_connectors/file_connector.py  (FileConnector)
  - data_connectors/sql_connector.py   (SQLConnector.execute_query)
  - services/search_service.py     (SearchService)
  - config.py                      (Config.SENSITIVE_FIELDS)

pandas DataFrames are modelled as a list of column names plus a list of
rows (each row a list of values aligned with the columns).  Python string
operations used by the source (substring containment, lower, strip,
split, int conversion) are modelled by executable helpers over lists of
characters.
-/

set_option autoImplicit false

namespace DataDock

/-! ### Python string helpers -/

/-- Index of the first occurrence of the pattern in the list, if any
(models the scanning behaviour behind Python substring tests and
str.find).  The empty pattern occurs at index 0, as in Python. -/
def firstIdx (needle : List Char) : List Char → Option Nat
  | [] => if needle.isPrefixOf ([] : List Char) then some 0 else none
  | c :: t =>
    if needle.isPrefixOf (c :: t) then some 0
    else (firstIdx needle t).map (· + 1)

/-- Python substring containment test (the in operator on strings). -/
def pyContains (hay needle : String) : Bool :=
  (firstIdx needle.toList hay.toList).isSome

/-- Python str.find as an optional index (the source only uses it after a
containment check, so the none case is never taken there). -/
def pyFind (hay needle : String) : Option Nat :=
  firstIdx needle.toList hay.toList

/-- Python str.lower (the source only lowercases ASCII column names and
query text). -/
def pyLower (s : String) : String :=
  String.mk (s.toList.map Char.toLower)

/-- Python str.strip with no argument: remove leading and trailing
whitespace. -/
def pyStrip (s : String) : String :=
  String.mk (((s.toList.dropWhile Char.isWhitespace).reverse.dropWhile
    Char.isWhitespace).reverse)

/-- Python str.split with a one-character separator (the source splits on
comma, single quote and double quote only). -/
def pySplitAux (sep : Char) : List Char → List Char → List String
  | [], acc => [String.mk acc.reverse]
  | c :: t, acc =>
    if c = sep then String.mk acc.reverse :: pySplitAux sep t []
    else pySplitAux sep t (c :: acc)

def pySplit (sep : Char) (s : String) : List String :=
  pySplitAux sep s.toList []

/-- Python slice s[a:b] on character indices (clamping, as in Python). -/
def pySlice (s : String) (a b : Nat) : String :=
  String.mk ((s.toList.take b).drop a)

/-- Python slice s[a:]. -/
def pyDrop (s : String) (a : Nat) : String :=
  String.mk (s.toList.drop a)

/-- Python str.replace of the percent character by the empty string
(removes every occurrence). -/
def pyStripPercent (s : String) : String :=
  String.mk (s.toList.filter (fun c => ¬ c = '%'))

/-- Python int(...) on a string: optional surrounding whitespace, optional
sign, then at least one digit; anything else raises ValueError (none). -/
def pyIntDigits : List Char → Option Int
  | [] => none
  | l =>
    if l.all Char.isDigit then
      some (Int.ofNat (l.foldl (fun n c => n * 10 + (c.toNat - '0'.toNat)) 0))
    else none

def pyInt (s : String) : Option Int :=
  match (pyStrip s).toList with
  | '-' :: rest => (pyIntDigits rest).map (fun n => -n)
  | '+' :: rest => pyIntDigits rest
  | l => pyIntDigits l

/-! ### Values and DataFrames -/

/-- A scalar cell value.  vnull models pandas NaN / Python None. -/
inductive Value where
  | vstr (s : String)
  | vint (n : Int)
  | vnull
  deriving DecidableEq, Repr

/-- pd.notna. -/
def Value.notna : Value → Bool
  | .vnull => false
  | _ => true

/-- Python str(...) of a cell, as produced by astype(str): NaN stringifies
to "nan". -/
def Value.toStr : Value → String
  | .vstr s => s
  | .vint n => toString n
  | .vnull => "nan"

/-- A pandas DataFrame: a columns axis plus rows aligned with it. -/
structure DataFrame where
  columns : List String
  rows : List (List Value)
  deriving DecidableEq, Repr

/-- pd.DataFrame() with no data. -/
def DataFrame.empty : DataFrame := ⟨[], []⟩

/-- df.empty: true when either axis has length zero. -/
def DataFrame.isEmpty (df : DataFrame) : Bool :=
  df.rows.isEmpty || df.columns.isEmpty

/-- Rectangularity: every row has one value per column (every frame the
pandas source builds satisfies this). -/
def DataFrame.wf (df : DataFrame) : Prop :=
  ∀ r ∈ df.rows, r.length = df.columns.length

/-- Label lookup in a row rendered as a dict (Series access row[col];
a missing label is modelled as NaN, matching pandas rectangular frames
where absent cells hold NaN). -/
def dictGet (d : List (String × Value)) (c : String) : Value :=
  match d.find? (fun p => p.1 = c) with
  | some p => p.2
  | none => .vnull

/-- row[col] where the row is a value list aligned with the columns. -/
def rowGet (cols : List String) (vals : List Value) (c : String) : Value :=
  dictGet (List.zip cols vals) c

/-! ### Configuration (config.py) -/

/-- Config.SENSITIVE_FIELDS (config.py lines 34-37). -/
def sensitiveFieldsConfig : List String :=
  ["password", "ssn", "credit_card", "phone", "email",
   "address", "salary", "medical_record", "bank_account"]

/-! ### BaseConnector.filter_sensitive_fields (base.py lines 39-59)

The function reads the global keyword list Config.SENSITIVE_FIELDS and the
table-specific list self._get_sensitive_fields(table_name) (which every
connector in the repository leaves at []); both are parameters here so the
theorems hold for every keyword configuration. -/

/-- df.drop(columns=toRemove): remove every column whose name is in the
list, from the columns axis and from every row. -/
def dropColumns (df : DataFrame) (toRemove : List String) : DataFrame :=
  { columns := df.columns.filter (fun c => ¬ toRemove.contains c),
    rows := df.rows.map (fun r =>
      ((List.zip df.columns r).filter (fun p => ¬ toRemove.contains p.1)).map
        Prod.snd) }

/-- Predicate deciding membership of a column in columns_to_remove
(base.py lines 49-54): the lowercased name contains some global keyword or
some table-specific keyword. -/
def isSensitiveCol (globalSens tableSens : List String) (col : String) : Bool :=
  globalSens.any (fun s => pyContains (pyLower col) s) ||
  tableSens.any (fun s => pyContains (pyLower col) s)

/-- BaseConnector.filter_sensitive_fields (base.py lines 39-59). -/
def filter_sensitive_fields (globalSens tableSens : List String)
    (df : DataFrame) : DataFrame :=
  if df.isEmpty then df
  else
    let columns_to_remove :=
      df.columns.filter (isSensitiveCol globalSens tableSens)
    if columns_to_remove.isEmpty then df
    else dropColumns df columns_to_remove

/-! ### FileConnector (file_connector.py)

The connector state mirrors the Python object fields set in init
(file_connector.py lines 11-15).  File-system access and format-specific
parsing (pd.read_csv / json.load / XML parsing, lines 20-31) are modelled
by a parse oracle: parse fileType filePath is some df when loading
succeeds with that frame, and none when the load raises (in particular for
every nonexistent or unreadable path). -/

structure FileConnectorState where
  name : String
  file_path : String
  file_type : String
  is_connected : Bool
  data : Option DataFrame
  deriving DecidableEq, Repr

/-- FileConnector.__init__ (file_connector.py lines 11-15): data starts as
None and is_connected as False (set in BaseConnector.__init__). -/
def mkFileConnector (path name ftype : String) : FileConnectorState :=
  { name := name, file_path := path, file_type := ftype,
    is_connected := false, data := none }

/-- FileConnector.connect (file_connector.py lines 17-40).  The oracle
read ftype path models the raw format-specific load: some df when it
succeeds with that frame, none when the underlying read or parse raises
(in particular for every nonexistent or unreadable path).  For csv and
json the load failure propagates into connect's except handler
(lines 20-29 raise, lines 37-40 catch), so is_connected is set False and
False is returned while self.data keeps its previous value (the
assignment never ran).  For xml, however, connect calls _parse_xml
(line 31), whose own except handler (lines 146-148) swallows the load
failure and returns an empty frame, so connect for xml always succeeds.
An unsupported file_type raises ValueError (line 33), caught like a csv
load failure. -/
def file_connect (read : String → String → Option DataFrame)
    (st : FileConnectorState) : Bool × FileConnectorState :=
  match (if st.file_type = "csv" ∨ st.file_type = "json"
         then read st.file_type st.file_path
         else if st.file_type = "xml"
         then some ((read st.file_type st.file_path).getD DataFrame.empty)
         else none) with
  | some d => (true, { st with is_connected := true, data := some d })
  | none => (false, { st with is_connected := false })

/-- FileConnector.disconnect (file_connector.py lines 42-45). -/
def file_disconnect (st : FileConnectorState) : FileConnectorState :=
  { st with data := none, is_connected := false }

/-- Column classification FileConnector._is_sensitive_field
(file_connector.py lines 150-154); note this local list is shorter than
Config.SENSITIVE_FIELDS and is used only by get_schema. -/
def isSensitiveFileSchema (c : String) : Bool :=
  (["password", "ssn", "credit_card", "phone", "email", "address",
    "salary"] : List String).any (fun s => pyContains (pyLower c) s)

/-- Person-identifier keywords of FileConnector._is_person_identifier
(file_connector.py lines 156-160). -/
def personIdentifiersFile : List String :=
  ["name", "first", "last", "full", "person", "user", "customer",
   "client", "id", "customerid", "customer_id", "userid", "user_id"]

def isPersonIdFile (c : String) : Bool :=
  personIdentifiersFile.any (fun k => pyContains (pyLower c) k)

/-- One column entry of the schema mapping built by
FileConnector.get_schema (file_connector.py lines 52-66).  The dtype
string of the pandas column is not modelled (no claim mentions it). -/
structure ColumnSchema where
  name : String
  nullable : Bool
  is_sensitive : Bool
  is_person_identifier : Bool
  deriving DecidableEq, Repr

structure TableSchema where
  columns : List ColumnSchema
  row_count : Nat
  deriving DecidableEq, Repr

/-- FileConnector.get_schema (file_connector.py lines 47-68): the empty
mapping when not connected or no data, otherwise a single main_table
entry. -/
def file_get_schema (st : FileConnectorState) :
    List (String × TableSchema) :=
  match st.is_connected, st.data with
  | true, some d =>
    [("main_table",
      { columns := d.columns.map (fun col =>
          { name := col,
            nullable := d.rows.any (fun r =>
              ¬ (rowGet d.columns r col).notna),
            is_sensitive := isSensitiveFileSchema col,
            is_person_identifier := isPersonIdFile col }),
        row_count := d.rows.length })]
  | _, _ => []

/-- FileConnector.list_tables (file_connector.py lines 116-120). -/
def file_list_tables (st : FileConnectorState) : List String :=
  if st.is_connected then ["main_table"] else []

/-! #### FileConnector.execute_query (file_connector.py lines 70-114)

The body's try block is modelled as an Except computation; error ()
stands for any exception raised inside the block (IndexError from the
quote split, ValueError from int, KeyError from filtering on a projected-
away column).  The except handler returns self.data.copy()
(line 114). -/

/-- Series.astype(str).str.contains(term, case=False, na=False)
(file_connector.py line 100): after astype(str) no NaN remains (NaN
stringifies to "nan"), and matching is case-insensitive.  The source
passes the term to pandas as a regex; this model covers terms without
regex metacharacters, treating them literally. -/
def valMatches (v : Value) (term : String) : Bool :=
  pyContains (pyLower v.toStr) (pyLower term)

/-- df[cols] column projection in the order requested. -/
def projectCols (df : DataFrame) (cols : List String) : DataFrame :=
  { columns := cols,
    rows := df.rows.map (fun r => cols.map (rowGet df.columns r)) }

/-- result_df[result_df[col].astype(str).str.contains(...)]
(file_connector.py line 100); KeyError when the column was projected
away. -/
def dfFilterByCol (df : DataFrame) (col term : String) :
    Except Unit DataFrame :=
  if df.columns.contains col then
    .ok { df with rows := df.rows.filter (fun r =>
            valMatches (rowGet df.columns r col) term) }
  else .error ()

/-- Extraction of the search term (file_connector.py lines 98-99):
where_part.split on a single quote, index 1, when a single quote is
present, else split on a double quote, index 1 (IndexError when
absent); then remove every percent sign. -/
def extractTerm (wp : String) : Except Unit String :=
  if pyContains wp (String.mk [Char.ofNat 39]) then
    match (pySplit (Char.ofNat 39) wp).get? 1 with
    | some t => .ok (pyStripPercent t)
    | none => .error ()
  else
    match (pySplit (Char.ofNat 34) wp).get? 1 with
    | some t => .ok (pyStripPercent t)
    | none => .error ()

/-- The loop for col in self.data.columns (file_connector.py
lines 95-100), threading result_df. -/
def applyLikeLoop (wp : String) :
    List String → DataFrame → Except Unit DataFrame
  | [], df => .ok df
  | col :: rest, df =>
    if pyContains (pyLower wp) (pyLower col) then
      match extractTerm wp with
      | .ok term =>
        match dfFilterByCol df col term with
        | .ok df2 => applyLikeLoop wp rest df2
        | .error e => .error e
      | .error e => .error e
    else applyLikeLoop wp rest df

/-- df.head(n) with a Python int, which may be negative (drop the last
abs n rows), as pandas defines it. -/
def dfHead (df : DataFrame) (n : Int) : DataFrame :=
  if 0 ≤ n then { df with rows := df.rows.take n.toNat }
  else { df with rows := df.rows.take (df.rows.length - n.natAbs) }

/-- The try block of FileConnector.execute_query (file_connector.py
lines 75-110). -/
def fileQueryGo (data : DataFrame) (query : String) :
    Except Unit DataFrame :=
  let ql := pyLower query
  if pyContains ql "select" && pyContains ql "from" then
    let select_part :=
      pyStrip (pySlice query (((pyFind ql "select").getD 0) + 6)
        ((pyFind ql "from").getD 0))
    let result0 :=
      if select_part = "*" then data
      else
        let columns := (pySplit ',' select_part).map pyStrip
        let available_columns :=
          columns.filter (fun c => data.columns.contains c)
        projectCols data available_columns
    match
      (if pyContains ql "where" then
        let where_part :=
          pyStrip (pyDrop query (((pyFind ql "where").getD 0) + 5))
        if pyContains (pyLower where_part) "like" then
          applyLikeLoop where_part data.columns result0
        else .ok result0
      else .ok result0) with
    | .error e => .error e
    | .ok result1 =>
      if pyContains ql "limit" then
        let limit_part :=
          pyStrip (pyDrop query (((pyFind ql "limit").getD 0) + 5))
        match pyInt limit_part with
        | some n => .ok (dfHead result1 n)
        | none => .error ()
      else .ok result1
  else .ok data

/-- FileConnector.execute_query (file_connector.py lines 70-114): empty
frame when not connected or no data; on an exception inside the try
block, return self.data.copy() — the full loaded table. -/
def file_execute_query (st : FileConnectorState) (query : String) :
    DataFrame :=
  match st.is_connected, st.data with
  | true, some d =>
    match fileQueryGo d query with
    | .ok df => df
    | .error _ => d
  | _, _ => DataFrame.empty

/-- FileConnector.search_person_records (file_connector.py
lines 162-190): empty mapping when not connected; otherwise the rows
matching the identifier (case-insensitive substring, OR across
person-identifier columns) are redacted and returned under main_table,
but only when the combined mask matched at least one row (the source
builds the mask as an OR of per-column masks and keeps data[mask] when
mask.any(); filtering rows by the disjunction is the same frame). -/
def file_search_person_records (st : FileConnectorState)
    (identifier : String) : List (String × DataFrame) :=
  match st.is_connected, st.data with
  | true, some d =>
    let person_columns := d.columns.filter isPersonIdFile
    if person_columns.isEmpty then []
    else
      let matched := d.rows.filter (fun r =>
        person_columns.any (fun c =>
          valMatches (rowGet d.columns r c) identifier))
      if matched.isEmpty then []
      else [("main_table",
        filter_sensitive_fields sensitiveFieldsConfig []
          ⟨d.columns, matched⟩)]
  | _, _ => []

/-! ### SQLConnector.execute_query (sql_connector.py lines 70-82)

The database engine is modelled as an oracle from query text to an
optional frame: none when executing the statement raises (malformed
query, source-level error), some df when it succeeds. -/

/-- SQLConnector.execute_query: empty frame when not connected
(lines 72-73); on success the fetched frame; on any exception the
handler returns an empty frame (lines 80-82). -/
def sql_execute_query (is_connected : Bool)
    (engine : String → Option DataFrame) (query : String) : DataFrame :=
  if is_connected then
    match engine query with
    | some df => df
    | none => DataFrame.empty
  else DataFrame.empty

/-! ### SearchService.global_search (search_service.py lines 16-88)

The service iterates over data-source ids, builds a connector through
json.loads plus ConnectorFactory.create_connector, connects, searches and
collects.  A data source's connector is modelled behaviourally:

  - createOk false models json.loads or create_connector raising
    (both are inside the per-source try and caught at line 50);
  - connectR none models connect() raising, some b its return value;
  - searchR identifier is the mapping returned by
    search_person_records(identifier), none when the call raises.

disconnect (line 40) mutates only the connector and is dropped.  The
search-session and audit-log steps (lines 54-72) are wrapped in their own
try blocks and cannot change the returned mapping, counts or queried
list, so they are not modelled; the optional search_session_id field is
likewise omitted.  The outer except (lines 81-88) only fires when
resolving the source list itself raises, which the pure environment
cannot do. -/

structure SourceBehavior where
  createOk : Bool
  connectR : Option Bool
  searchR : String → Option (List (String × DataFrame))

structure DataSourceRec where
  name : String
  behavior : SourceBehavior

/-- The dictionary returned by global_search (lines 74-79). -/
structure SearchOut where
  results : List (String × List (String × DataFrame))
  total_records : Nat
  data_sources_queried : List String
  deriving DecidableEq, Repr

/-- Row-count contribution of one source's result mapping: the loop at
lines 47-48 adds len(table_results) for every table. -/
def tableMapRecords (r : List (String × DataFrame)) : Nat :=
  (r.map (fun q => q.2.rows.length)).sum

/-- One iteration of the for data_source_id loop (lines 27-52). -/
def searchStep (identifier : String) (acc : SearchOut)
    (src : Option DataSourceRec) : SearchOut :=
  match src with
  | none => acc
  | some ds =>
    if ds.behavior.createOk then
      match ds.behavior.connectR with
      | some true =>
        match ds.behavior.searchR identifier with
        | some results =>
          if results.isEmpty then acc
          else
            { results := acc.results ++ [(ds.name, results)],
              total_records := acc.total_records + tableMapRecords results,
              data_sources_queried :=
                acc.data_sources_queried ++ [ds.name] }
        | none => acc
      | _ => acc
    else acc

/-- SearchService.global_search over an environment mapping data-source
ids to records (DataSourceService.get_data_source_by_id; none models a
missing source, skipped at lines 30-31). -/
def global_search (env : Nat → Option DataSourceRec) (ids : List Nat)
    (identifier : String) : SearchOut :=
  ids.foldl (fun acc i => searchStep identifier acc (env i)) ⟨[], 0, []⟩

/-- Sum of row counts over every table of every source of a results
mapping. -/
def sumRecords (results : List (String × List (String × DataFrame))) :
    Nat :=
  (results.map (fun p => tableMapRecords p.2)).sum

/-! ### SearchService.group_results_by_person (search_service.py
lines 204-242) -/

/-- One entry appended to a person group (lines 235-240). -/
structure ProvRecord where
  data_source : String
  table : String
  record : List (String × Value)
  person_identifier : String
  deriving DecidableEq, Repr

/-- person_groups: a Python dict from person key to list of records,
modelled as an insertion-ordered association list. -/
abbrev Groups := List (String × List ProvRecord)

/-- person_groups.get(key): first entry with the key (addRecord keeps
keys unique, so this is dict lookup). -/
def groupLookup : Groups → String → Option (List ProvRecord)
  | [], _ => none
  | (k', rs) :: t, k => if k' = k then some rs else groupLookup t k

/-- person_groups[person_key].append(rec), creating the key when absent
(lines 231-240). -/
def addRecord : Groups → String → ProvRecord → Groups
  | [], k, r => [(k, [r])]
  | (k', rs) :: t, k, r =>
    if k' = k then (k', rs ++ [r]) :: t
    else (k', rs) :: addRecord t k r

/-- Person-identifier keywords of group_results_by_person
(search_service.py line 217). -/
def personIdentifiersGroup : List String :=
  ["name", "first", "last", "full", "person", "user", "customer",
   "client", "id", "customerid", "customer_id", "userid", "user_id"]

def isPersonIdGroup (c : String) : Bool :=
  personIdentifiersGroup.any (fun k => pyContains (pyLower c) k)

/-- The per-row key derivation (lines 223-229): the first person column
whose value is notna and has a non-empty strip, stripped and
lowercased. -/
def firstPersonKey : List String → List (String × Value) → Option String
  | [], _ => none
  | c :: cs, d =>
    let v := dictGet d c
    if v.notna = true ∧ pyStrip v.toStr ≠ "" then
      some (pyLower (pyStrip v.toStr))
    else firstPersonKey cs d

/-- Key derivation from a record dict alone, recomputing the person
columns from the dict's own keys; for rectangular frames this agrees
with the in-table derivation. -/
def deriveKeyDict (d : List (String × Value)) : Option String :=
  firstPersonKey ((d.map Prod.fst).filter isPersonIdGroup) d

/-- Processing of one row (lines 222-240). -/
def groupRow (src tbl : String) (cols pcols : List String)
    (gs : Groups) (vals : List Value) : Groups :=
  match firstPersonKey pcols (List.zip cols vals) with
  | none => gs
  | some k => addRecord gs k ⟨src, tbl, List.zip cols vals, k⟩

/-- Processing of one table (lines 209-240): empty frames are skipped
(line 210), tables without person columns contribute nothing
(line 220). -/
def groupTable (src : String) (gs : Groups) (tbl : String)
    (df : DataFrame) : Groups :=
  if df.isEmpty then gs
  else if (df.columns.filter isPersonIdGroup).isEmpty then gs
  else df.rows.foldl
    (groupRow src tbl df.columns (df.columns.filter isPersonIdGroup)) gs

/-- SearchService.group_results_by_person (lines 204-242). -/
def group_results_by_person
    (results : List (String × List (String × DataFrame))) : Groups :=
  results.foldl
    (fun gs p => p.2.foldl (fun gs2 q => groupTable p.1 gs2 q.1 q.2) gs)
    []

/-! ### SearchService.get_person_provenance (search_service.py
lines 244-264) -/

structure ProvenanceOut where
  person_identifier : String
  total_records : Nat
  data_sources : List String
  records : List ProvRecord
  deriving DecidableEq, Repr

/-- SearchService.get_person_provenance: a fresh global_search for the
identifier, grouped, then the group looked up under
person_identifier.lower() — the source lowercases but does not strip the
lookup key (line 261) — defaulting to []. -/
def get_person_provenance (env : Nat → Option DataSourceRec)
    (ids : List Nat) (pid : String) : ProvenanceOut :=
  let sr := global_search env ids pid
  let groups := group_results_by_person sr.results
  { person_identifier := pid,
    total_records := sr.total_records,
    data_sources := sr.data_sources_queried,
    records := (groupLookup groups (pyLower pid)).getD [] }

/-! ### Predicates used by the theorems -/

/-- Membership of a record in the group of a given person key. -/
def inGroup (gs : Groups) (k : String) (rec : ProvRecord) : Prop :=
  rec ∈ (groupLookup gs k).getD []

/-- Monotone extension of group tables: everything in g1 is in g2. -/
def SubG (g1 g2 : Groups) : Prop :=
  ∀ k rec, inGroup g1 k rec → inGroup g2 k rec

/-- Every record in every group is stored under the key written into its
person_identifier field. -/
def KeyedG (gs : Groups) : Prop :=
  ∀ k rec, inGroup gs k rec → rec.person_identifier = k

/-- Every record in every group is stored under the key derivable from
its own record dict. -/
def GoodG (gs : Groups) : Prop :=
  ∀ k rec, inGroup gs k rec →
    rec.person_identifier = k ∧ deriveKeyDict rec.record = some k

/-- A source is unreachable for a search: connector creation raises,
connect raises or returns False, or the search raises (all caught by the
per-source handler at search_service.py lines 50-52). -/
def SourceFails (s : DataSourceRec) (ident : String) : Prop :=
  s.behavior.createOk = false ∨ s.behavior.connectR ≠ some true ∨
  s.behavior.searchR ident = none

instance (s : DataSourceRec) (ident : String) :
    Decidable (SourceFails s ident) := by
  unfold SourceFails
  infer_instance

/-- The id list with every unreachable configured source removed (missing
ids are kept; their step is already a no-op). -/
def keepReachable (env : Nat → Option DataSourceRec) (ident : String)
    (ids : List Nat) : List Nat :=
  ids.filter (fun j =>
    match env j with
    | none => true
    | some s => ¬ SourceFails s ident)

/-- env with the entry at id i replaced. -/
def updateEnv (env : Nat → Option DataSourceRec) (i : Nat)
    (s : DataSourceRec) : Nat → Option DataSourceRec :=
  fun j => if j = i then some s else env j

/-- The same source record with its connector made to fail connect. -/
def connectFailed (s : DataSourceRec) : DataSourceRec :=
  { s with behavior := { s.behavior with connectR := some false } }

/-! ### Concrete instances used by witnesses and counterexamples -/

/-- The loaded file of the round-trip scenario: one row with a name, a
social-security number and an email address. -/
def janeDF : DataFrame :=
  ⟨["name", "ssn", "email"],
   [[Value.vstr "Jane Doe", Value.vstr "123-45-6789",
     Value.vstr "j@x.com"]]⟩

/-- The connector after connecting to that file. -/
def janeConn : FileConnectorState :=
  (file_connect (fun _ _ => some janeDF)
    (mkFileConnector "people.csv" "people" "csv")).2

/-- Concrete sources for the C2 witness: alpha and gamma reachable with
one single-row table each, beta fails to connect. -/
def c2src1 : DataSourceRec :=
  ⟨"alpha", ⟨true, some true,
    fun _ => some [("t", ⟨["name"], [[Value.vstr "a"]]⟩)]⟩⟩

def c2src2 : DataSourceRec := ⟨"beta", ⟨true, some false, fun _ => none⟩⟩

def c2src3 : DataSourceRec :=
  ⟨"gamma", ⟨true, some true,
    fun _ => some [("u", ⟨["name"], [[Value.vstr "b"]]⟩)]⟩⟩

def c2env : Nat → Option DataSourceRec :=
  fun i =>
    if i = 1 then some c2src1
    else if i = 2 then some c2src2
    else if i = 3 then some c2src3
    else none

/-- A concrete source that connects and finds nothing. -/
def c10srcE : DataSourceRec :=
  ⟨"empty", ⟨true, some true, fun _ => some []⟩⟩

def c10env : Nat → Option DataSourceRec :=
  fun i =>
    if i = 0 then some c10srcE
    else if i = 1 then some c2src1
    else none

/-- A file table whose single name value carries surrounding whitespace;
its person key strips to jane. -/
def spacedDF : DataFrame := ⟨["name"], [[Value.vstr " jane "]]⟩

/-- A data source backed by the real file connector over that table. -/
def spacedSrc : DataSourceRec :=
  { name := "src1",
    behavior :=
      { createOk := true, connectR := some true,
        searchR := fun ident =>
          some (file_search_person_records
            ⟨"spaced", "spaced.csv", "csv", true, some spacedDF⟩
            ident) } }

def envC5 : Nat → Option DataSourceRec :=
  fun i => if i = 0 then some spacedSrc else none

/-- Table for the C6 witness: one person column, one keyless row (empty
name) and one keyed row. -/
def c6df : DataFrame :=
  ⟨["name"], [[Value.vstr ""], [Value.vstr "Bob"]]⟩

def c6results : List (String × List (String × DataFrame)) :=
  [("s1", [("t1", c6df)])]

/-! ## Theorems -/

/-! ### Redaction (claims C1 and C9) -/

/-- Helper: for a non-empty input frame, no column of the filtered frame
is classified sensitive. -/
theorem filterCols_not_sensitive (gs ts : List String) (df : DataFrame)
    (h : df.isEmpty = false) :
    ∀ c ∈ (filter_sensitive_fields gs ts df).columns,
      isSensitiveCol gs ts c = false := by
  intro c hc
  unfold filter_sensitive_fields at hc
  rw [h] at hc
  simp only [Bool.false_eq_true, if_false] at hc
  by_cases hrem :
      (df.columns.filter (isSensitiveCol gs ts)).isEmpty = true
  · rw [if_pos hrem] at hc
    rw [List.isEmpty_iff, List.filter_eq_nil_iff] at hrem
    simpa using hrem c hc
  · rw [if_neg hrem] at hc
    unfold dropColumns at hc
    simp only [List.mem_filter] at hc
    by_contra hp
    have hp' : isSensitiveCol gs ts c = true := by
      cases hq : isSensitiveCol gs ts c
      · exact absurd hq hp
      · rfl
    have hmem : c ∈ df.columns.filter (isSensitiveCol gs ts) :=
      List.mem_filter.mpr ⟨hc.1, hp'⟩
    have hnc := hc.2
    simp only [decide_eq_true_eq] at hnc
    exact hnc (List.elem_iff.mpr hmem)

/-- C1 (counterexample): the claim as stated fails on an empty table.
filter_sensitive_fields returns a zero-row frame untouched (base.py
lines 41-42), so a zero-row frame whose columns axis carries the column
ssn leaves the function still containing a column whose lowercased name
contains the configured sensitive keyword ssn. -/
theorem C1_counterexample :
    filter_sensitive_fields ["ssn"] [] ⟨["ssn"], []⟩ = ⟨["ssn"], []⟩ ∧
    "ssn" ∈ (filter_sensitive_fields ["ssn"] [] ⟨["ssn"], []⟩).columns ∧
    isSensitiveCol ["ssn"] [] "ssn" = true := by
  refine ⟨rfl, ?_, by decide⟩
  decide

/-- C1 (amended): for every keyword configuration and every NON-EMPTY
input table (at least one row and one column), the frame returned by
filter_sensitive_fields contains no column whose lowercased name contains
any configured global or table-specific sensitive keyword; on empty
frames the function is the identity and the property can fail on the
columns axis. -/
theorem C1_redaction_exhaustive (gs ts : List String) (df : DataFrame)
    (h : df.isEmpty = false) :
    ∀ c ∈ (filter_sensitive_fields gs ts df).columns,
      isSensitiveCol gs ts c = false :=
  filterCols_not_sensitive gs ts df h

/-- Witness for C1: on a concrete one-row frame with columns name and
ssn, the surviving column name is not classified sensitive. -/
theorem C1_redaction_exhaustive_witness :
    isSensitiveCol ["ssn"] [] "name" = false :=
  C1_redaction_exhaustive ["ssn"] []
    ⟨["name", "ssn"], [[Value.vstr "Jane", Value.vstr "123"]]⟩
    (by decide) "name" (by decide)

/-- C9: applying filter_sensitive_fields twice with the same table
context yields the same frame as applying it once, and on an empty input
frame the function returns its input unchanged. -/
theorem C9_filter_idempotent (gs ts : List String) (df : DataFrame) :
    filter_sensitive_fields gs ts (filter_sensitive_fields gs ts df) =
      filter_sensitive_fields gs ts df ∧
    (df.isEmpty = true → filter_sensitive_fields gs ts df = df) := by
  constructor
  · by_cases hE : df.isEmpty = true
    · have h1 : filter_sensitive_fields gs ts df = df := by
        unfold filter_sensitive_fields
        rw [hE]
        simp
      rw [h1]
      exact h1
    · have hE' : df.isEmpty = false := by
        cases hq : df.isEmpty
        · rfl
        · exact absurd hq hE
      set g := filter_sensitive_fields gs ts df with hg
      by_cases hgE : g.isEmpty = true
      · unfold filter_sensitive_fields
        rw [hgE]
        simp
      · have hs := filterCols_not_sensitive gs ts df hE'
        rw [← hg] at hs
        have hrem : g.columns.filter (isSensitiveCol gs ts) = [] :=
          List.filter_eq_nil_iff.mpr (fun c hc => by simp [hs c hc])
        unfold filter_sensitive_fields
        split
        · rfl
        · rw [hrem]
          simp
  · intro hE
    unfold filter_sensitive_fields
    rw [hE]
    simp

/-- Witness for C9: the empty-input conjunct at a concrete zero-row
frame. -/
theorem C9_filter_idempotent_witness :
    filter_sensitive_fields ["ssn"] [] ⟨["a"], []⟩ = ⟨["a"], []⟩ :=
  (C9_filter_idempotent ["ssn"] [] ⟨["a"], []⟩).2 rfl

/-! ### File connector connection failure (claim C7) -/

/-- C7 (counterexample): the claim fails for xml descriptors.  Over a
file system where every read of the path fails (the path names no
existing readable file), connect() on an xml descriptor returns TRUE,
is_connected becomes true, and get_schema() returns a non-empty mapping
with a zero-column main_table — because _parse_xml (file_connector.py
lines 146-148) catches the load error and returns an empty frame instead
of letting connect's handler see it. -/
theorem C7_counterexample :
    (file_connect (fun _ _ => none)
      (mkFileConnector "missing.xml" "people" "xml")).1 = true ∧
    (file_connect (fun _ _ => none)
      (mkFileConnector "missing.xml" "people" "xml")).2.is_connected =
      true ∧
    file_get_schema (file_connect (fun _ _ => none)
      (mkFileConnector "missing.xml" "people" "xml")).2 =
      [("main_table", { columns := [], row_count := 0 })] := by
  exact ⟨rfl, rfl, rfl⟩

/-- C7 (amended): for a file-kind descriptor of a format whose loader
propagates read errors — csv or json — and whose path names no existing
readable file, connect() returns false, the connector's is_connected
flag stays false, and a subsequent get_schema() returns the empty
mapping; for xml descriptors the XML parser swallows the read failure,
so connect() instead succeeds with an empty in-memory table. -/
theorem C7_connect_nonexistent
    (read : String → String → Option DataFrame)
    (path name ftype : String) (hty : ftype = "csv" ∨ ftype = "json")
    (h : read ftype path = none) :
    (file_connect read (mkFileConnector path name ftype)).1 = false ∧
    (file_connect read
      (mkFileConnector path name ftype)).2.is_connected = false ∧
    file_get_schema
      (file_connect read (mkFileConnector path name ftype)).2 = [] := by
  have hx : (if ftype = "csv" ∨ ftype = "json"
             then read ftype path
             else if ftype = "xml"
             then some ((read ftype path).getD DataFrame.empty)
             else none) = none := by
    rw [if_pos hty]
    exact h
  unfold file_connect
  simp only [mkFileConnector]
  rw [hx]
  exact ⟨rfl, rfl, rfl⟩

/-- Witness for C7 at a concrete csv descriptor over a file system with
no readable files. -/
theorem C7_connect_nonexistent_witness :
    (file_connect (fun _ _ => none)
      (mkFileConnector "missing.csv" "people" "csv")).1 = false ∧
    (file_connect (fun _ _ => none)
      (mkFileConnector "missing.csv" "people" "csv")).2.is_connected =
      false ∧
    file_get_schema (file_connect (fun _ _ => none)
      (mkFileConnector "missing.csv" "people" "csv")).2 = [] :=
  C7_connect_nonexistent (fun _ _ => none) "missing.csv" "people" "csv"
    (Or.inl rfl) rfl

/-! ### Round trip through the file connector (claim C8) -/

/-- C8: searching jane on the loaded single-row file yields one table
(main_table) with exactly one row in which the column name is present and
the columns ssn and email are absent — redacted before the result leaves
the connector. -/
theorem C8_round_trip :
    file_search_person_records janeConn "jane" =
      [("main_table", ⟨["name"], [[Value.vstr "Jane Doe"]]⟩)] ∧
    "ssn" ∉ (filter_sensitive_fields sensitiveFieldsConfig []
      janeDF).columns ∧
    "email" ∉ (filter_sensitive_fields sensitiveFieldsConfig []
      janeDF).columns := by
  refine ⟨by decide, by decide, by decide⟩

/-! ### executeQuery error containment (claim C4) -/

/-- C4 (counterexample): on the connected file connector holding the
one-row jane table, the query SELECT * FROM main_table LIMIT x fails
inside execute_query (int conversion of x raises), yet the function
returns the FULL one-row loaded table rather than an empty result —
refuting the claim that both connectors return an empty result on
execution error. -/
theorem C4_counterexample :
    fileQueryGo janeDF "SELECT * FROM main_table LIMIT x" =
      Except.error () ∧
    file_execute_query janeConn "SELECT * FROM main_table LIMIT x" =
      janeDF ∧
    janeDF.rows.length = 1 := by
  refine ⟨by rfl, by decide, rfl⟩

/-- C4 (amended): neither connector propagates a query-execution failure
to the caller, but they degrade differently: the SQL connector returns an
empty frame when the engine raises, while the file connector returns the
full loaded table when its query handling raises internally. -/
theorem C4_error_containment :
    (∀ (engine : String → Option DataFrame) (q : String),
       engine q = none → sql_execute_query true engine q =
         DataFrame.empty) ∧
    (∀ (st : FileConnectorState) (d : DataFrame) (q : String),
       st.is_connected = true → st.data = some d →
       fileQueryGo d q = Except.error () →
       file_execute_query st q = d) := by
  constructor
  · intro engine q h
    unfold sql_execute_query
    rw [h]
    rfl
  · intro st d q h1 h2 h3
    unfold file_execute_query
    rw [h1, h2]
    show (match fileQueryGo d q with
          | Except.ok df => df
          | Except.error _ => d) = d
    rw [h3]

/-- Witness for C4 at a concrete raising engine and the concrete failing
file query. -/
theorem C4_error_containment_witness :
    sql_execute_query true (fun _ => none) "SELECT * FROM t" =
      DataFrame.empty ∧
    file_execute_query janeConn "SELECT * FROM main_table LIMIT x" =
      janeDF :=
  ⟨C4_error_containment.1 (fun _ => none) "SELECT * FROM t" rfl,
   C4_error_containment.2 janeConn janeDF
     "SELECT * FROM main_table LIMIT x" (by decide) (by decide)
     (by rfl)⟩

/-! ### Search orchestration (claims C2, C3, C10) -/

/-- Helper: a source that fails at creation, fails to connect (raise or
False), or whose search raises, leaves the accumulator untouched. -/
theorem searchStep_failed (ident : String) (acc : SearchOut)
    (s : DataSourceRec)
    (h : s.behavior.createOk = false ∨ s.behavior.connectR ≠ some true ∨
         s.behavior.searchR ident = none) :
    searchStep ident acc (some s) = acc := by
  simp only [searchStep]
  rcases h with h | h | h
  · rw [h]
    simp
  · cases hc : s.behavior.connectR with
    | none => simp [hc]
    | some b =>
      cases b
      · simp [hc]
      · exact absurd hc h
  · rw [h]
    cases hk : s.behavior.createOk
    · simp
    · cases hc : s.behavior.connectR with
      | none => simp [hc]
      | some b => cases b <;> simp [hc]

/-- Helper: a reachable source with a non-empty search mapping appends
its name and results and adds its row count. -/
theorem searchStep_ok (ident : String) (acc : SearchOut)
    (s : DataSourceRec) (r : List (String × DataFrame))
    (hok : s.behavior.createOk = true)
    (hc : s.behavior.connectR = some true)
    (hs : s.behavior.searchR ident = some r) (hne : r ≠ []) :
    searchStep ident acc (some s) =
      { results := acc.results ++ [(s.name, r)],
        total_records := acc.total_records + tableMapRecords r,
        data_sources_queried := acc.data_sources_queried ++ [s.name] } := by
  simp only [searchStep]
  rw [hok, hc, hs]
  simp [List.isEmpty_iff, hne]

/-- Helper: a source whose search returns the empty mapping leaves the
accumulator untouched (the if results: test at search_service.py
line 42). -/
theorem searchStep_empty (ident : String) (acc : SearchOut)
    (s : DataSourceRec) (hs : s.behavior.searchR ident = some []) :
    searchStep ident acc (some s) = acc := by
  simp only [searchStep]
  cases hok : s.behavior.createOk
  · simp
  · simp only [if_true]
    cases hc : s.behavior.connectR with
    | none => rfl
    | some b =>
      cases b
      · rfl
      · rw [hs]
        simp

/-- Helper: every search step either leaves the accumulator unchanged or
appends one reachable source with a non-empty result mapping. -/
theorem searchStep_shape (ident : String) (acc : SearchOut)
    (o : Option DataSourceRec) :
    searchStep ident acc o = acc ∨
    ∃ s r, o = some s ∧ s.behavior.createOk = true ∧
      s.behavior.connectR = some true ∧
      s.behavior.searchR ident = some r ∧ r ≠ [] ∧
      searchStep ident acc o =
        { results := acc.results ++ [(s.name, r)],
          total_records := acc.total_records + tableMapRecords r,
          data_sources_queried :=
            acc.data_sources_queried ++ [s.name] } := by
  cases o with
  | none => exact Or.inl rfl
  | some s =>
    cases hok : s.behavior.createOk
    · exact Or.inl (searchStep_failed ident acc s (Or.inl hok))
    · cases hc : s.behavior.connectR with
      | none =>
        exact Or.inl (searchStep_failed ident acc s
          (Or.inr (Or.inl (by simp [hc]))))
      | some b =>
        cases b
        · exact Or.inl (searchStep_failed ident acc s
            (Or.inr (Or.inl (by simp [hc]))))
        · cases hs : s.behavior.searchR ident with
          | none =>
            exact Or.inl (searchStep_failed ident acc s
              (Or.inr (Or.inr hs)))
          | some r =>
            by_cases hr : r = []
            · subst hr
              exact Or.inl (searchStep_empty ident acc s hs)
            · exact Or.inr ⟨s, r, rfl, hok, hc, hs, hr,
                searchStep_ok ident acc s r hok hc hs hr⟩

/-- Helper: membership in data_sources_queried after the fold is
membership before the fold or a reachable non-empty source named n among
the folded ids. -/
theorem global_search_queried_aux (env : Nat → Option DataSourceRec)
    (ident : String) (l : List Nat) :
    ∀ (acc : SearchOut) (n : String),
    (n ∈ (l.foldl (fun a i => searchStep ident a (env i))
        acc).data_sources_queried ↔
      n ∈ acc.data_sources_queried ∨
      ∃ j, j ∈ l ∧ ∃ s r, env j = some s ∧ s.name = n ∧
        s.behavior.createOk = true ∧ s.behavior.connectR = some true ∧
        s.behavior.searchR ident = some r ∧ r ≠ []) := by
  induction l with
  | nil =>
    intro acc n
    simp
  | cons i t ih =>
    intro acc n
    rw [List.foldl_cons, ih]
    constructor
    · rintro (hmem | ⟨j, hj, rest⟩)
      · rcases searchStep_shape ident acc (env i) with heq | ⟨s, r, hi,
          hok, hc, hs, hne, heq⟩
        · rw [heq] at hmem
          exact Or.inl hmem
        · rw [heq] at hmem
          simp only [List.mem_append, List.mem_singleton] at hmem
          rcases hmem with hmem | rfl
          · exact Or.inl hmem
          · exact Or.inr ⟨i, List.mem_cons_self i t,
              s, r, hi, rfl, hok, hc, hs, hne⟩
      · exact Or.inr ⟨j, List.mem_cons_of_mem i hj, rest⟩
    · rintro (hmem | ⟨j, hj, s, r, hjs, hn, hok, hc, hs, hne⟩)
      · left
        rcases searchStep_shape ident acc (env i) with heq | ⟨s, r, hi,
          hok, hc, hs, hne, heq⟩
        · rw [heq]
          exact hmem
        · rw [heq]
          simp only [List.mem_append]
          exact Or.inl hmem
      · rcases List.mem_cons.mp hj with rfl | hj'
        · left
          rw [hjs, searchStep_ok ident acc s r hok hc hs hne]
          simp [hn]
        · exact Or.inr ⟨j, hj', s, r, hjs, hn, hok, hc, hs, hne⟩

/-- Helper: dropping the unreachable sources from the fan-out list does
not change any step of the fold. -/
theorem keepReachable_foldl_aux (env : Nat → Option DataSourceRec)
    (ident : String) (ids : List Nat) :
    ∀ acc, ids.foldl (fun a j => searchStep ident a (env j)) acc =
      (keepReachable env ident ids).foldl
        (fun a j => searchStep ident a (env j)) acc := by
  induction ids with
  | nil =>
    intro acc
    rfl
  | cons j t ih =>
    intro acc
    cases hj : env j with
    | none =>
      have hk : keepReachable env ident (j :: t) =
          j :: keepReachable env ident t := by
        simp [keepReachable, List.filter_cons, hj]
      rw [hk, List.foldl_cons, List.foldl_cons]
      exact ih _
    | some s =>
      by_cases hf : SourceFails s ident
      · have hk : keepReachable env ident (j :: t) =
            keepReachable env ident t := by
          simp [keepReachable, List.filter_cons, hj, hf]
        rw [hk, List.foldl_cons, hj,
            searchStep_failed ident acc s hf]
        exact ih acc
      · have hk : keepReachable env ident (j :: t) =
            j :: keepReachable env ident t := by
          simp [keepReachable, List.filter_cons, hj, hf]
        rw [hk, List.foldl_cons, List.foldl_cons]
        exact ih _

/-- Helper: the full output for a fan-out over exactly two reachable
sources with non-empty results. -/
theorem global_search_two_ok (env : Nat → Option DataSourceRec)
    (ident : String) (i1 i3 : Nat) (s1 s3 : DataSourceRec)
    (r1 r3 : List (String × DataFrame))
    (h1 : env i1 = some s1) (h3 : env i3 = some s3)
    (hok1 : s1.behavior.createOk = true)
    (hc1 : s1.behavior.connectR = some true)
    (hs1 : s1.behavior.searchR ident = some r1) (hne1 : r1 ≠ [])
    (hok3 : s3.behavior.createOk = true)
    (hc3 : s3.behavior.connectR = some true)
    (hs3 : s3.behavior.searchR ident = some r3) (hne3 : r3 ≠ []) :
    global_search env [i1, i3] ident =
      { results := [(s1.name, r1), (s3.name, r3)],
        total_records := tableMapRecords r1 + tableMapRecords r3,
        data_sources_queried := [s1.name, s3.name] } := by
  unfold global_search
  rw [List.foldl_cons, List.foldl_cons, List.foldl_nil, h1,
      searchStep_ok ident _ s1 r1 hok1 hc1 hs1 hne1, h3,
      searchStep_ok ident _ s3 r3 hok3 hc3 hs3 hne3]
  simp

/-- C2: over every environment and identifier, (1) the fan-out output
equals the output over the id list with every unreachable source removed
— unreachable sources in any position, in any number, over any set size
contribute nothing and abort nothing (the function is total: no
exception escapes); (2) every name in data_sources_queried comes from a
reachable source with a non-empty result, so failed sources are excluded
from it; and (3) in particular, for three configured sources with
exactly one unreachable — in first, middle or last position — and the
other two returning non-empty results, the output collects exactly the
two reachable sources' results and data_sources_queried is exactly their
two names. -/
theorem C2_partial_failure (env : Nat → Option DataSourceRec)
    (ident : String) :
    (∀ ids, global_search env ids ident =
       global_search env (keepReachable env ident ids) ident) ∧
    (∀ ids n,
       n ∈ (global_search env ids ident).data_sources_queried →
       ∃ j, j ∈ ids ∧ ∃ s r, env j = some s ∧ s.name = n ∧
         s.behavior.createOk = true ∧ s.behavior.connectR = some true ∧
         s.behavior.searchR ident = some r ∧ r ≠ []) ∧
    (∀ (i1 i2 i3 : Nat) (s1 s2 s3 : DataSourceRec)
       (r1 r3 : List (String × DataFrame)),
       env i1 = some s1 → env i2 = some s2 → env i3 = some s3 →
       s1.behavior.createOk = true → s1.behavior.connectR = some true →
       s1.behavior.searchR ident = some r1 → r1 ≠ [] →
       SourceFails s2 ident →
       s3.behavior.createOk = true → s3.behavior.connectR = some true →
       s3.behavior.searchR ident = some r3 → r3 ≠ [] →
       ∀ ids, ids = [i2, i1, i3] ∨ ids = [i1, i2, i3] ∨
           ids = [i1, i3, i2] →
         (global_search env ids ident).data_sources_queried =
           [s1.name, s3.name] ∧
         (global_search env ids ident).results =
           [(s1.name, r1), (s3.name, r3)]) := by
  refine ⟨?_, ?_, ?_⟩
  · intro ids
    exact keepReachable_foldl_aux env ident ids ⟨[], 0, []⟩
  · intro ids n hn
    have hm := (global_search_queried_aux env ident ids
      ⟨[], 0, []⟩ n).mp hn
    simpa using hm
  · intro i1 i2 i3 s1 s2 s3 r1 r3 h1 h2 h3 hok1 hc1 hs1 hne1 hf hok3
      hc3 hs3 hne3 ids hids
    have htwo := global_search_two_ok env ident i1 i3 s1 s3 r1 r3 h1 h3
      hok1 hc1 hs1 hne1 hok3 hc3 hs3 hne3
    have hcase : global_search env ids ident =
        global_search env [i1, i3] ident := by
      rcases hids with rfl | rfl | rfl
      · unfold global_search
        rw [List.foldl_cons, h2, searchStep_failed ident _ s2 hf]
      · unfold global_search
        rw [List.foldl_cons, List.foldl_cons, h2,
            searchStep_failed ident _ s2 hf]
        rfl
      · unfold global_search
        rw [show [i1, i3, i2] = [i1, i3] ++ [i2] from rfl,
            List.foldl_append, List.foldl_cons, h2,
            searchStep_failed ident _ s2 hf, List.foldl_nil]
    rw [hcase, htwo]
    exact ⟨rfl, rfl⟩

/-- Witness for C2 on the concrete three-source environment, with the
unreachable source in first position, plus the failed-source-removal
equality on the middle-position list. -/
theorem C2_partial_failure_witness :
    (global_search c2env [2, 1, 3] "a").data_sources_queried =
      ["alpha", "gamma"] ∧
    global_search c2env [1, 2, 3] "a" =
      global_search c2env (keepReachable c2env "a" [1, 2, 3]) "a" :=
  ⟨((C2_partial_failure c2env "a").2.2 1 2 3 c2src1 c2src2 c2src3
      [("t", ⟨["name"], [[Value.vstr "a"]]⟩)]
      [("u", ⟨["name"], [[Value.vstr "b"]]⟩)]
      rfl rfl rfl rfl rfl rfl (by decide) (by decide)
      rfl rfl rfl (by decide) [2, 1, 3] (Or.inl rfl)).1,
   (C2_partial_failure c2env "a").1 [1, 2, 3]⟩

/-- Helper: one search step preserves the invariant that total_records
equals the sum of row counts over the accumulated results. -/
theorem searchStep_total_invariant (ident : String) (acc : SearchOut)
    (src : Option DataSourceRec)
    (h : acc.total_records = sumRecords acc.results) :
    (searchStep ident acc src).total_records =
      sumRecords (searchStep ident acc src).results := by
  cases src with
  | none => exact h
  | some s =>
    simp only [searchStep]
    cases s.behavior.createOk
    · simpa using h
    · simp only [if_true]
      cases s.behavior.connectR with
      | none => exact h
      | some b =>
        cases b
        · exact h
        · cases s.behavior.searchR ident with
          | none => exact h
          | some r =>
            by_cases hr : r.isEmpty = true
            · simpa [hr] using h
            · simp only [hr, Bool.false_eq_true, if_false]
              simp [sumRecords, h]

/-- Helper: the invariant holds for the whole fold of global_search. -/
theorem global_search_total_aux (env : Nat → Option DataSourceRec)
    (ident : String) (ids : List Nat) (acc : SearchOut)
    (h : acc.total_records = sumRecords acc.results) :
    (ids.foldl (fun a i => searchStep ident a (env i)) acc).total_records
      = sumRecords
        (ids.foldl (fun a i => searchStep ident a (env i)) acc).results
    := by
  induction ids generalizing acc with
  | nil => exact h
  | cons i t ih =>
    rw [List.foldl_cons]
    exact ih _ (searchStep_total_invariant ident acc (env i) h)

/-- C3: for every environment, id list and identifier, the total_records
field of the SearchResult returned by global_search equals the sum, over
every source in the results mapping and every table of that source, of
the number of rows of the TableResult. -/
theorem C3_total_records (env : Nat → Option DataSourceRec)
    (ids : List Nat) (ident : String) :
    (global_search env ids ident).total_records =
      sumRecords (global_search env ids ident).results :=
  global_search_total_aux env ident ids ⟨[], 0, []⟩ rfl

/-- C10: a source whose connector is created, connects, and whose search
completes with an empty result mapping contributes nothing (the step
leaves the accumulator unchanged, so it is omitted from the results
mapping and from data_sources_queried); the whole search output is equal
to the output with that source replaced by one that fails to connect;
and, provided every mapping a connector returns holds only non-empty
frames (as every connector in the repository guarantees),
data_sources_queried contains a name exactly when some configured source
of that name was reachable and contributed at least one non-empty
TableResult. -/
theorem C10_empty_search_source (env : Nat → Option DataSourceRec)
    (ids : List Nat) (ident : String) (i : Nat) (s : DataSourceRec)
    (hi : env i = some s)
    (hs : s.behavior.searchR ident = some [])
    (hframes : ∀ j s2 r2, env j = some s2 →
       s2.behavior.searchR ident = some r2 → ∀ p ∈ r2, p.2.rows ≠ []) :
    (∀ acc, searchStep ident acc (some s) = acc) ∧
    global_search env ids ident =
      global_search (updateEnv env i (connectFailed s)) ids ident ∧
    (∀ n, n ∈ (global_search env ids ident).data_sources_queried ↔
       ∃ j, j ∈ ids ∧ ∃ s2 r2, env j = some s2 ∧ s2.name = n ∧
         s2.behavior.createOk = true ∧
         s2.behavior.connectR = some true ∧
         s2.behavior.searchR ident = some r2 ∧
         ∃ p, p ∈ r2 ∧ p.2.rows ≠ []) := by
  refine ⟨fun acc => searchStep_empty ident acc s hs, ?_, ?_⟩
  · unfold global_search
    apply List.foldl_ext
    intro acc j hj
    by_cases hji : j = i
    · subst hji
      rw [hi, searchStep_empty ident acc s hs]
      have hu : updateEnv env j (connectFailed s) j =
          some (connectFailed s) := by
        unfold updateEnv
        simp
      rw [hu, searchStep_failed ident acc (connectFailed s)
        (Or.inr (Or.inl (by simp [connectFailed])))]
    · have hu : updateEnv env i (connectFailed s) j = env j := by
        unfold updateEnv
        simp [hji]
      rw [hu]
  · intro n
    rw [show global_search env ids ident =
        ids.foldl (fun a j => searchStep ident a (env j)) ⟨[], 0, []⟩
        from rfl,
      global_search_queried_aux env ident ids ⟨[], 0, []⟩ n]
    simp only [List.not_mem_nil, false_or]
    constructor
    · rintro ⟨j, hj, s2, r2, hjs, hn, hok, hc, hsr, hne⟩
      have hall := hframes j s2 r2 hjs hsr
      cases r2 with
      | nil => exact absurd rfl hne
      | cons p t2 =>
        exact ⟨j, hj, s2, p :: t2, hjs, hn, hok, hc, hsr,
          p, List.mem_cons_self p t2, hall p (List.mem_cons_self p t2)⟩
    · rintro ⟨j, hj, s2, r2, hjs, hn, hok, hc, hsr, p, hp, hpn⟩
      refine ⟨j, hj, s2, r2, hjs, hn, hok, hc, hsr, ?_⟩
      intro hemp
      subst hemp
      cases hp

/-- Witness for C10: the empty-result source leaves the initial
accumulator unchanged and the two-source search output is identical to
the one where it fails to connect. -/
theorem C10_empty_search_source_witness :
    searchStep "a" ⟨[], 0, []⟩ (some c10srcE) = ⟨[], 0, []⟩ ∧
    global_search c10env [0, 1] "a" =
      global_search (updateEnv c10env 0 (connectFailed c10srcE))
        [0, 1] "a" := by
  have hframes : ∀ j s2 r2, c10env j = some s2 →
      s2.behavior.searchR "a" = some r2 → ∀ p ∈ r2, p.2.rows ≠ [] := by
    intro j s2 r2 hj hr p hp
    unfold c10env at hj
    split at hj
    · cases hj
      simp only [c10srcE] at hr
      cases hr
      cases hp
    · split at hj
      · cases hj
        simp only [c2src1] at hr
        cases hr
        simp only [List.mem_singleton] at hp
        subst hp
        decide
      · cases hj
  have h := C10_empty_search_source c10env [0, 1] "a" 0 c10srcE rfl rfl
    hframes
  exact ⟨h.1 ⟨[], 0, []⟩, h.2.1⟩

/-! ### Person grouping (claims C6 and C5) -/

theorem inGroup_nil (k : String) (rec : ProvRecord) :
    ¬ inGroup [] k rec := by
  simp [inGroup, groupLookup]

theorem inGroup_cons (k1 : String) (rs : List ProvRecord) (t : Groups)
    (k : String) (rec : ProvRecord) :
    inGroup ((k1, rs) :: t) k rec ↔
      (k1 = k ∧ rec ∈ rs) ∨ (k1 ≠ k ∧ inGroup t k rec) := by
  by_cases h : k1 = k
  · simp [inGroup, groupLookup, h]
  · simp [inGroup, groupLookup, h]

/-- Helper: membership after dict append — either it was already there,
or it is the appended record under the appended key. -/
theorem inGroup_addRecord_iff (gs : Groups) (k : String) (r : ProvRecord)
    (k' : String) (rec : ProvRecord) :
    inGroup (addRecord gs k r) k' rec ↔
      inGroup gs k' rec ∨ (k' = k ∧ rec = r) := by
  induction gs with
  | nil =>
    rw [show addRecord [] k r = [(k, [r])] from rfl, inGroup_cons]
    constructor
    · rintro (⟨rfl, hm⟩ | ⟨hne, hin⟩)
      · simp only [List.mem_singleton] at hm
        exact Or.inr ⟨rfl, hm⟩
      · exact absurd hin (inGroup_nil k' rec)
    · rintro (hin | ⟨rfl, rfl⟩)
      · exact absurd hin (inGroup_nil k' rec)
      · exact Or.inl ⟨rfl, List.mem_singleton.mpr rfl⟩
  | cons p t ih =>
    obtain ⟨k1, rs⟩ := p
    by_cases h1 : k1 = k
    · subst h1
      rw [show addRecord ((k1, rs) :: t) k1 r = (k1, rs ++ [r]) :: t
          from by simp [addRecord], inGroup_cons, inGroup_cons]
      constructor
      · rintro (⟨rfl, hm⟩ | ⟨hne, hin⟩)
        · rcases List.mem_append.mp hm with hm | hm
          · exact Or.inl (Or.inl ⟨rfl, hm⟩)
          · exact Or.inr ⟨rfl, List.mem_singleton.mp hm⟩
        · exact Or.inl (Or.inr ⟨hne, hin⟩)
      · rintro ((⟨rfl, hm⟩ | ⟨hne, hin⟩) | ⟨rfl, rfl⟩)
        · exact Or.inl ⟨rfl, List.mem_append.mpr (Or.inl hm)⟩
        · exact Or.inr ⟨hne, hin⟩
        · exact Or.inl ⟨rfl,
            List.mem_append.mpr (Or.inr (List.mem_singleton.mpr rfl))⟩
    · rw [show addRecord ((k1, rs) :: t) k r =
            (k1, rs) :: addRecord t k r from by simp [addRecord, h1],
          inGroup_cons, inGroup_cons, ih]
      constructor
      · rintro (⟨rfl, hm⟩ | ⟨hne, hin | ⟨rfl, rfl⟩⟩)
        · exact Or.inl (Or.inl ⟨rfl, hm⟩)
        · exact Or.inl (Or.inr ⟨hne, hin⟩)
        · exact Or.inr ⟨rfl, rfl⟩
      · rintro ((⟨rfl, hm⟩ | ⟨hne, hin⟩) | ⟨rfl, rfl⟩)
        · exact Or.inl ⟨rfl, hm⟩
        · exact Or.inr ⟨hne, Or.inl hin⟩
        · exact Or.inr ⟨h1, Or.inr ⟨rfl, rfl⟩⟩

theorem subG_addRecord (gs : Groups) (k : String) (r : ProvRecord) :
    SubG gs (addRecord gs k r) := by
  intro k' rec h
  exact (inGroup_addRecord_iff gs k r k' rec).mpr (Or.inl h)

theorem inGroup_addRecord_self (gs : Groups) (k : String)
    (r : ProvRecord) : inGroup (addRecord gs k r) k r :=
  (inGroup_addRecord_iff gs k r k r).mpr (Or.inr ⟨rfl, rfl⟩)

theorem subG_refl (gs : Groups) : SubG gs gs := fun _ _ h => h

theorem subG_trans {g1 g2 g3 : Groups} (h1 : SubG g1 g2)
    (h2 : SubG g2 g3) : SubG g1 g3 :=
  fun k rec h => h2 k rec (h1 k rec h)

theorem subG_groupRow (src tbl : String) (cols pcols : List String)
    (gs : Groups) (vals : List Value) :
    SubG gs (groupRow src tbl cols pcols gs vals) := by
  unfold groupRow
  cases firstPersonKey pcols (List.zip cols vals) with
  | none => exact subG_refl gs
  | some k => exact subG_addRecord gs k _

theorem subG_foldl {α : Type} (f : Groups → α → Groups)
    (hf : ∀ gs a, SubG gs (f gs a)) (l : List α) :
    ∀ gs, SubG gs (l.foldl f gs) := by
  induction l with
  | nil => intro gs; exact subG_refl gs
  | cons a t ih =>
    intro gs
    exact subG_trans (hf gs a) (ih (f gs a))

theorem subG_groupTable (src : String) (gs : Groups) (tbl : String)
    (df : DataFrame) : SubG gs (groupTable src gs tbl df) := by
  unfold groupTable
  split
  · exact subG_refl gs
  · split
    · exact subG_refl gs
    · exact subG_foldl _
        (fun gs2 v => subG_groupRow src tbl df.columns _ gs2 v)
        df.rows gs

/-- Helper: if an element of the folded list puts the record into its
group regardless of the accumulator, and every step is monotone, the
record is in the final groups. -/
theorem foldl_inGroup_of_mem {α : Type} (f : Groups → α → Groups)
    (hf : ∀ gs a, SubG gs (f gs a)) (l : List α) (x : α) (hx : x ∈ l)
    (k : String) (rec : ProvRecord)
    (hstep : ∀ gs, inGroup (f gs x) k rec) :
    ∀ gs, inGroup (l.foldl f gs) k rec := by
  induction l with
  | nil => cases hx
  | cons a t ih =>
    intro gs
    rcases List.mem_cons.mp hx with rfl | hx'
    · rw [List.foldl_cons]
      exact subG_foldl f hf t (f gs x) k rec (hstep gs)
    · rw [List.foldl_cons]
      exact ih hx' (f gs a)

theorem inGroup_groupRow_self (src tbl : String) (cols pcols : List String)
    (gs : Groups) (vals : List Value) (k : String)
    (hk : firstPersonKey pcols (List.zip cols vals) = some k) :
    inGroup (groupRow src tbl cols pcols gs vals) k
      ⟨src, tbl, List.zip cols vals, k⟩ := by
  unfold groupRow
  rw [hk]
  exact inGroup_addRecord_self gs k _

theorem inGroup_groupTable_self (src : String) (gs : Groups)
    (tbl : String) (df : DataFrame) (vals : List Value) (k : String)
    (hv : vals ∈ df.rows)
    (hk : firstPersonKey (df.columns.filter isPersonIdGroup)
      (List.zip df.columns vals) = some k) :
    inGroup (groupTable src gs tbl df) k
      ⟨src, tbl, List.zip df.columns vals, k⟩ := by
  have hrne : df.rows ≠ [] := List.ne_nil_of_mem hv
  have hpc : df.columns.filter isPersonIdGroup ≠ [] := by
    intro hemp
    rw [hemp] at hk
    cases hk
  have hcne : df.columns ≠ [] := by
    intro hemp
    apply hpc
    rw [hemp]
    rfl
  unfold groupTable
  split
  · rename_i hE
    exfalso
    revert hE
    simp [DataFrame.isEmpty, List.isEmpty_iff, hrne, hcne]
  · split
    · rename_i hpE
      exfalso
      rw [List.isEmpty_iff] at hpE
      exact hpc hpE
    · exact foldl_inGroup_of_mem _
        (fun gs2 v => subG_groupRow src tbl df.columns _ gs2 v)
        df.rows vals hv k _
        (fun gs2 => inGroup_groupRow_self src tbl df.columns _ gs2 vals
          k hk) gs

theorem inGroup_group_results_self
    (results : List (String × List (String × DataFrame)))
    (src : String) (tables : List (String × DataFrame)) (tbl : String)
    (df : DataFrame) (vals : List Value) (k : String)
    (hmem : (src, tables) ∈ results) (htbl : (tbl, df) ∈ tables)
    (hv : vals ∈ df.rows)
    (hk : firstPersonKey (df.columns.filter isPersonIdGroup)
      (List.zip df.columns vals) = some k) :
    inGroup (group_results_by_person results) k
      ⟨src, tbl, List.zip df.columns vals, k⟩ := by
  unfold group_results_by_person
  apply foldl_inGroup_of_mem
    (fun gs p => p.2.foldl (fun gs2 q => groupTable p.1 gs2 q.1 q.2) gs)
    (fun gs p => subG_foldl _
      (fun gs2 q => subG_groupTable p.1 gs2 q.1 q.2) p.2 gs)
    results (src, tables) hmem k _ ?_ []
  intro gs
  apply foldl_inGroup_of_mem (fun gs2 q => groupTable src gs2 q.1 q.2)
    (fun gs2 q => subG_groupTable src gs2 q.1 q.2) tables (tbl, df)
    htbl k _ ?_ gs
  intro gs2
  exact inGroup_groupTable_self src gs2 tbl df vals k hv hk

theorem good_nil : GoodG [] := by
  intro k rec h
  exact absurd h (inGroup_nil k rec)

theorem keyed_nil : KeyedG [] := by
  intro k rec h
  exact absurd h (inGroup_nil k rec)

theorem good_addRecord {gs : Groups} {k : String} {r : ProvRecord}
    (hg : GoodG gs) (h1 : r.person_identifier = k)
    (h2 : deriveKeyDict r.record = some k) : GoodG (addRecord gs k r) := by
  intro k' rec h
  rcases (inGroup_addRecord_iff gs k r k' rec).mp h with h' | ⟨rfl, rfl⟩
  · exact hg k' rec h'
  · exact ⟨h1, h2⟩

theorem keyed_addRecord {gs : Groups} {k : String} {r : ProvRecord}
    (hg : KeyedG gs) (h1 : r.person_identifier = k) :
    KeyedG (addRecord gs k r) := by
  intro k' rec h
  rcases (inGroup_addRecord_iff gs k r k' rec).mp h with h' | ⟨rfl, rfl⟩
  · exact hg k' rec h'
  · exact h1

/-- Helper: for rectangular rows the key derivable from the record dict
alone coincides with the key the grouping loop derives from the table's
columns. -/
theorem deriveKeyDict_zip (cols : List String) (vals : List Value)
    (h : vals.length = cols.length) :
    deriveKeyDict (List.zip cols vals) =
      firstPersonKey (cols.filter isPersonIdGroup)
        (List.zip cols vals) := by
  unfold deriveKeyDict
  rw [List.map_fst_zip cols vals (le_of_eq h.symm)]

theorem good_groupRow (src tbl : String) (cols : List String)
    (gs : Groups) (vals : List Value) (hlen : vals.length = cols.length)
    (hg : GoodG gs) :
    GoodG (groupRow src tbl cols (cols.filter isPersonIdGroup) gs vals)
    := by
  unfold groupRow
  cases hk : firstPersonKey (cols.filter isPersonIdGroup)
      (List.zip cols vals) with
  | none => exact hg
  | some k =>
    refine good_addRecord hg rfl ?_
    rw [deriveKeyDict_zip cols vals hlen]
    exact hk

theorem keyed_groupRow (src tbl : String) (cols pcols : List String)
    (gs : Groups) (vals : List Value) (hg : KeyedG gs) :
    KeyedG (groupRow src tbl cols pcols gs vals) := by
  unfold groupRow
  cases firstPersonKey pcols (List.zip cols vals) with
  | none => exact hg
  | some k => exact keyed_addRecord hg rfl

theorem good_rows_fold (src tbl : String) (cols : List String)
    (rows : List (List Value)) :
    ∀ gs, (∀ r ∈ rows, r.length = cols.length) → GoodG gs →
      GoodG (rows.foldl
        (groupRow src tbl cols (cols.filter isPersonIdGroup)) gs) := by
  induction rows with
  | nil =>
    intro gs _ hg
    exact hg
  | cons v t ih =>
    intro gs hlen hg
    rw [List.foldl_cons]
    exact ih _ (fun r hr => hlen r (List.mem_cons_of_mem v hr))
      (good_groupRow src tbl cols gs v (hlen v (List.mem_cons_self v t))
        hg)

theorem keyed_rows_fold (src tbl : String) (cols pcols : List String)
    (rows : List (List Value)) :
    ∀ gs, KeyedG gs →
      KeyedG (rows.foldl (groupRow src tbl cols pcols) gs) := by
  induction rows with
  | nil =>
    intro gs hg
    exact hg
  | cons v t ih =>
    intro gs hg
    rw [List.foldl_cons]
    exact ih _ (keyed_groupRow src tbl cols pcols gs v hg)

theorem good_groupTable (src : String) (gs : Groups) (tbl : String)
    (df : DataFrame) (hwf : DataFrame.wf df) (hg : GoodG gs) :
    GoodG (groupTable src gs tbl df) := by
  unfold groupTable
  split
  · exact hg
  · split
    · exact hg
    · exact good_rows_fold src tbl df.columns df.rows gs hwf hg

theorem keyed_groupTable (src : String) (gs : Groups) (tbl : String)
    (df : DataFrame) (hg : KeyedG gs) :
    KeyedG (groupTable src gs tbl df) := by
  unfold groupTable
  split
  · exact hg
  · split
    · exact hg
    · exact keyed_rows_fold src tbl df.columns _ df.rows gs hg

theorem good_tables_fold (src : String)
    (tables : List (String × DataFrame)) :
    ∀ gs, (∀ q ∈ tables, DataFrame.wf q.2) → GoodG gs →
      GoodG (tables.foldl (fun gs2 q => groupTable src gs2 q.1 q.2) gs)
    := by
  induction tables with
  | nil =>
    intro gs _ hg
    exact hg
  | cons q t ih =>
    intro gs hwf hg
    rw [List.foldl_cons]
    exact ih _ (fun p hp => hwf p (List.mem_cons_of_mem q hp))
      (good_groupTable src gs q.1 q.2 (hwf q (List.mem_cons_self q t))
        hg)

theorem keyed_tables_fold (src : String)
    (tables : List (String × DataFrame)) :
    ∀ gs, KeyedG gs →
      KeyedG (tables.foldl (fun gs2 q => groupTable src gs2 q.1 q.2) gs)
    := by
  induction tables with
  | nil =>
    intro gs hg
    exact hg
  | cons q t ih =>
    intro gs hg
    rw [List.foldl_cons]
    exact ih _ (keyed_groupTable src gs q.1 q.2 hg)

/-- Helper: every record grouped from well-formed tables carries exactly
the key it is grouped under, and that key is recomputable from its own
dict. -/
theorem good_group_results
    (results : List (String × List (String × DataFrame)))
    (hwf : ∀ p ∈ results, ∀ q ∈ p.2, DataFrame.wf q.2) :
    GoodG (group_results_by_person results) := by
  unfold group_results_by_person
  have haux : ∀ (l : List (String × List (String × DataFrame))) gs,
      (∀ p ∈ l, ∀ q ∈ p.2, DataFrame.wf q.2) → GoodG gs →
      GoodG (l.foldl (fun gs p =>
        p.2.foldl (fun gs2 q => groupTable p.1 gs2 q.1 q.2) gs) gs) := by
    intro l
    induction l with
    | nil =>
      intro gs _ hg
      exact hg
    | cons p t ih =>
      intro gs hw hg
      rw [List.foldl_cons]
      exact ih _ (fun p2 hp2 => hw p2 (List.mem_cons_of_mem p hp2))
        (good_tables_fold p.1 p.2 gs
          (fun q hq => hw p (List.mem_cons_self p t) q hq) hg)
  exact haux results [] hwf good_nil

/-- Helper: every grouped record carries exactly the key it is grouped
under (no well-formedness needed). -/
theorem keyed_group_results
    (results : List (String × List (String × DataFrame))) :
    KeyedG (group_results_by_person results) := by
  unfold group_results_by_person
  have haux : ∀ (l : List (String × List (String × DataFrame))) gs,
      KeyedG gs →
      KeyedG (l.foldl (fun gs p =>
        p.2.foldl (fun gs2 q => groupTable p.1 gs2 q.1 q.2) gs) gs) := by
    intro l
    induction l with
    | nil =>
      intro gs hg
      exact hg
    | cons p t ih =>
      intro gs hg
      rw [List.foldl_cons]
      exact ih _ (keyed_tables_fold p.1 p.2 gs hg)
  exact haux results [] keyed_nil

/-- C6: over well-formed (rectangular) search results, a row none of
whose person-identifier columns holds a non-empty trimmed value appears
in no group produced by group_results_by_person; a row that does have
such a value is grouped under the stripped lowercased value of the first
such column in column iteration order; and total_records of the raw
search output still counts every row (it equals the full row-count sum
over the results mapping, grouped or not). -/
theorem C6_grouping
    (results : List (String × List (String × DataFrame)))
    (src : String) (tables : List (String × DataFrame)) (tbl : String)
    (df : DataFrame) (vals : List Value)
    (hwf : ∀ p ∈ results, ∀ q ∈ p.2, DataFrame.wf q.2)
    (hmem : (src, tables) ∈ results) (htbl : (tbl, df) ∈ tables)
    (hval : vals ∈ df.rows) :
    (firstPersonKey (df.columns.filter isPersonIdGroup)
        (List.zip df.columns vals) = none →
      ∀ k rec, inGroup (group_results_by_person results) k rec →
        rec.record ≠ List.zip df.columns vals) ∧
    (∀ k, firstPersonKey (df.columns.filter isPersonIdGroup)
        (List.zip df.columns vals) = some k →
      inGroup (group_results_by_person results) k
        ⟨src, tbl, List.zip df.columns vals, k⟩) ∧
    (∀ (env : Nat → Option DataSourceRec) (ids : List Nat)
        (ident : String),
      (global_search env ids ident).total_records =
        sumRecords (global_search env ids ident).results) := by
  have hlen : vals.length = df.columns.length :=
    hwf (src, tables) hmem (tbl, df) htbl vals hval
  refine ⟨?_, ?_, ?_⟩
  · intro hnone k rec hrec heq
    have hgood := good_group_results results hwf k rec hrec
    rw [heq, deriveKeyDict_zip df.columns vals hlen, hnone] at hgood
    exact Option.noConfusion hgood.2
  · intro k hk
    exact inGroup_group_results_self results src tables tbl df vals k
      hmem htbl hval hk
  · intro env ids ident
    exact global_search_total_aux env ident ids ⟨[], 0, []⟩ rfl

/-- Witness for C6: on a concrete one-column table holding an empty name
and the name Bob, the Bob row is grouped under bob. -/
theorem C6_grouping_witness :
    inGroup (group_results_by_person c6results) "bob"
      ⟨"s1", "t1", List.zip c6df.columns [Value.vstr "Bob"], "bob"⟩ :=
  (C6_grouping c6results "s1" [("t1", c6df)] "t1" c6df [Value.vstr "Bob"]
    (by simp only [DataFrame.wf]; decide) (by decide) (by decide)
    (by decide)).2.1 "bob" (by decide)

/-- C5 (counterexample): for the input identifier with surrounding
whitespace, get_person_provenance returns NO records although the group
keyed by the lowercased TRIMMED identifier (jane) is non-empty — the
source looks the group up under person_identifier.lower() without
stripping (search_service.py line 261), so the claim as stated (exact
match against the lowercased, trimmed input) fails. -/
theorem C5_counterexample :
    (get_person_provenance envC5 [0] " jane ").records = [] ∧
    groupLookup
      (group_results_by_person (global_search envC5 [0] " jane ").results)
      (pyLower (pyStrip " jane ")) =
      some [⟨"src1", "main_table", [("name", Value.vstr " jane ")],
        "jane"⟩] := by
  exact ⟨rfl, rfl⟩

/-- C5 (amended): get_person_provenance runs a fresh global_search,
groups it, and returns exactly the group stored under the LOWERCASED
(not trimmed) input identifier: every returned record's person key
equals the lowercased input (exact key equality, not substring), and
when no group key equals the lowercased input the records list is
empty. -/
theorem C5_provenance_lowercased (env : Nat → Option DataSourceRec)
    (ids : List Nat) (pid : String) :
    (∀ rec ∈ (get_person_provenance env ids pid).records,
       rec.person_identifier = pyLower pid) ∧
    (groupLookup
        (group_results_by_person (global_search env ids pid).results)
        (pyLower pid) = none →
      (get_person_provenance env ids pid).records = []) := by
  constructor
  · intro rec hrec
    exact keyed_group_results (global_search env ids pid).results
      (pyLower pid) rec hrec
  · intro hnone
    show (groupLookup
      (group_results_by_person (global_search env ids pid).results)
      (pyLower pid)).getD [] = []
    rw [hnone]
    rfl

/-- Witness for C5 on the concrete spaced-name environment with the
unspaced identifier jane. -/
theorem C5_provenance_lowercased_witness :
    (⟨"src1", "main_table", [("name", Value.vstr " jane ")], "jane"⟩ :
      ProvRecord).person_identifier = pyLower "jane" :=
  (C5_provenance_lowercased envC5 [0] "jane").1
    ⟨"src1", "main_table", [("name", Value.vstr " jane ")], "jane"⟩
    (by decide)

end DataDock
